import Mathlib

/-!
Shallow embedding of the deployment delivery pipeline of `fastapi_cloud_cli`
(`utils/api.py` and `commands/deploy.py`): the per-attempt retry/backoff
executor, the build-log stream reader with its resume cursor and outer
attempt loop, the deployment status poller, and the upload-cancellation
path of the deploy command.

Network behaviour (what the server sends, when the clock is read) is an
explicit input: each loop iteration consumes one environment entry, and
side effects (sleeps, yields, HTTP requests) are recorded in traces.
-/

namespace FastapiCloudCli

/-! ## Error model

Exceptions of the `httpx` library that the code classifies:
`httpx.TimeoutException`, `httpx.NetworkError`, `httpx.RemoteProtocolError`
and `httpx.HTTPStatusError` (the latter carrying the response status code
and body text). -/

inductive HttpxError : Type where
  | timeoutException : HttpxError
  | networkError : HttpxError
  | remoteProtocolError : HttpxError
  | httpStatusError (status_code : Nat) (body : String) : HttpxError
deriving DecidableEq, Repr

/-! ## Per-attempt executor (`attempt` context manager, api.py lines 65-105) -/

/-- Backoff of `_backoff` inside `attempt`: `min(2**attempt_number, 30)` seconds. -/
def backoffSeconds (attempt_number : Nat) : Nat :=
  min (2 ^ attempt_number) 30

/-- Outcome of running one attempt body that raised an `httpx` error:
either the context manager swallows the error after sleeping
(`retry`, carrying the seconds slept), or it raises
`StreamLogError` with the status code and response body (`fatal`). -/
inductive AttemptSignal : Type where
  | retry (sleep_seconds : Nat) : AttemptSignal
  | fatal (status_code : Nat) (detail : String) : AttemptSignal
deriving DecidableEq, Repr

/-- The `attempt` context manager's classification of a raised `httpx`
error (api.py lines 76-105): timeout/network/protocol errors and HTTP
status errors with code >= 500 back off and signal retry; any other HTTP
status error becomes a fatal `StreamLogError` with status code and body. -/
def attempt (attempt_number : Nat) : HttpxError → AttemptSignal
  | .timeoutException => .retry (backoffSeconds attempt_number)
  | .networkError => .retry (backoffSeconds attempt_number)
  | .remoteProtocolError => .retry (backoffSeconds attempt_number)
  | .httpStatusError code body =>
      if 500 ≤ code then .retry (backoffSeconds attempt_number)
      else .fatal code body

/-- An error is transient when `attempt` classifies it as retryable. -/
def isTransient : HttpxError → Bool
  | .timeoutException => true
  | .networkError => true
  | .remoteProtocolError => true
  | .httpStatusError code _ => 500 ≤ code

/-! ## Deployment statuses (api.py lines 142-190) -/

inductive DeploymentStatus : Type where
  | waiting_upload
  | ready_for_build
  | building
  | extracting
  | extracting_failed
  | building_image
  | building_image_failed
  | deploying
  | deploying_failed
  | verifying
  | verifying_failed
  | verifying_skipped
  | success
  | failed
deriving DecidableEq, Repr

def SUCCESSFUL_STATUSES : List DeploymentStatus :=
  [.success, .verifying_skipped]

def FAILED_STATUSES : List DeploymentStatus :=
  [.failed, .verifying_failed, .deploying_failed, .building_image_failed,
   .extracting_failed]

def TERMINAL_STATUSES : List DeploymentStatus :=
  SUCCESSFUL_STATUSES ++ FAILED_STATUSES

def POLL_INTERVAL : ℚ := 2
def POLL_TIMEOUT : ℚ := 120
def POLL_MAX_RETRIES : Nat := 5

/-! ## Deployment status poller (`poll_deployment_status`, api.py lines 297-325)

Each loop iteration reads the monotonic clock (`elapsed` = seconds since
`start`) and then performs one GET; the environment supplies both as a
list of `(elapsed, outcome)` pairs consumed in order. The returned trace
is the list of sleeps performed (poll-interval sleeps and backoff sleeps),
in seconds. -/

/-- What one `GET /apps/{app_id}/deployments/{id}` poll produced:
a parsed status, or a raised `httpx` error. -/
inductive PollOutcome : Type where
  | ok (status : DeploymentStatus) : PollOutcome
  | err (e : HttpxError) : PollOutcome
deriving DecidableEq, Repr

inductive PollResult : Type where
  | returned (status : DeploymentStatus) : PollResult
  | timedOut : PollResult
  | tooManyRetries : PollResult
  | streamLogError (status_code : Nat) (detail : String) : PollResult
  | inputExhausted : PollResult
deriving DecidableEq, Repr

/-- Loop of `poll_deployment_status`. Per iteration: raise `TimeoutError` when
`elapsed > 120`; otherwise run the body under `attempt error_count`. On a
parsed status: reset the error counter, return it when terminal, else sleep
`POLL_INTERVAL` and continue. On a transient error: the context manager
sleeps the backoff, then `error_count += 1` and `TooManyRetriesError` when
it reaches `POLL_MAX_RETRIES`. A fatal error propagates as
`StreamLogError`. `inputExhausted` is the model artifact for running out
of environment entries. -/
def poll_deployment_status :
    List (ℚ × PollOutcome) → Nat → PollResult × List ℚ
  | [], _ => (.inputExhausted, [])
  | (elapsed, outcome) :: rest, error_count =>
      if POLL_TIMEOUT < elapsed then (.timedOut, [])
      else
        match outcome with
        | .ok status =>
            if status ∈ TERMINAL_STATUSES then (.returned status, [])
            else
              let next := poll_deployment_status rest 0
              (next.1, POLL_INTERVAL :: next.2)
        | .err e =>
            match attempt error_count e with
            | .retry s =>
                if POLL_MAX_RETRIES ≤ error_count + 1 then
                  (.tooManyRetries, [(s : ℚ)])
                else
                  let next := poll_deployment_status rest (error_count + 1)
                  (next.1, (s : ℚ) :: next.2)
            | .fatal code body => (.streamLogError code body, [])

/-! ## Build-log line protocol (api.py lines 48-62, 249-254) -/

/-- Parsed build-log line: the tagged union discriminated by `type`.
`message` carries text and an optional id; the generic members
(`complete`, `failed`, `timeout`, `heartbeat`) carry only an optional id. -/
inductive BuildLogLine : Type where
  | message (text : String) (id : Option String) : BuildLogLine
  | complete (id : Option String) : BuildLogLine
  | failed (id : Option String) : BuildLogLine
  | timeout (id : Option String) : BuildLogLine
  | heartbeat (id : Option String) : BuildLogLine
deriving DecidableEq, Repr

def BuildLogLine.id : BuildLogLine → Option String
  | .message _ i => i
  | .complete i => i
  | .failed i => i
  | .timeout i => i
  | .heartbeat i => i

/-- A line is terminal when its type is `complete` or `failed`. -/
def isTerminalLine : BuildLogLine → Bool
  | .complete _ => true
  | .failed _ => true
  | _ => false

/-- One raw line of the response stream, classified the way the reader
classifies it: empty/whitespace-only (`if not line or not line.strip()`),
failing to validate as the tagged union (`_parse_log_line` returns `None`),
or parsing to a `BuildLogLine`. -/
inductive RawLine : Type where
  | blank : RawLine
  | malformed : RawLine
  | valid (line : BuildLogLine) : RawLine
deriving DecidableEq, Repr

/-- Python truthiness of an `str | None` value: `None` and `""` are falsy. -/
def pyTruthy : Option String → Bool
  | none => false
  | some s => !s.isEmpty

/-! ## Build-log stream reader (`stream_build_logs`, api.py lines 207-247) -/

/-- How the inner `for line in response.iter_lines()` loop exits:
a terminal line was yielded and the generator returned; a `timeout` line
broke out to reconnect; or the lines ran out (connection closed). -/
inductive ReadExit : Type where
  | terminal : ReadExit
  | timeoutBreak : ReadExit
  | closed : ReadExit
deriving DecidableEq, Repr

/-- The read loop over one connection's lines: skip blank and malformed
lines; for a parsed line, update `last_id` when the line's id is truthy
(`if log_line.id:`), yield `message` lines, yield `complete`/`failed` and
return, break on `timeout`, ignore `heartbeat`. Returns the yielded lines,
the final `last_id`, and how the loop exited. -/
def readLines :
    List RawLine → Option String →
      List BuildLogLine × Option String × ReadExit
  | [], last_id => ([], last_id, .closed)
  | .blank :: rest, last_id => readLines rest last_id
  | .malformed :: rest, last_id => readLines rest last_id
  | .valid l :: rest, last_id =>
      let last_id' := if pyTruthy l.id then l.id else last_id
      match l with
      | .message text i =>
          let next := readLines rest last_id'
          (.message text i :: next.1, next.2)
      | .complete i => ([.complete i], last_id', .terminal)
      | .failed i => ([.failed i], last_id', .terminal)
      | .timeout _ => ([], last_id', .timeoutBreak)
      | .heartbeat _ => readLines rest last_id'

/-- One streaming GET as the environment delivers it: either opening it
raises an `httpx` error (connect failure, or `raise_for_status`), or it
delivers a list of lines and then either closes cleanly (`ending = none`)
or raises mid-read (`ending = some e`). -/
inductive Connection : Type where
  | fails (e : HttpxError) : Connection
  | delivers (lines : List RawLine) (ending : Option HttpxError) : Connection
deriving DecidableEq, Repr

/-- Observable event of the generator: a yielded line, or a `time.sleep`
of the given number of seconds. -/
inductive TraceItem : Type where
  | yielded (line : BuildLogLine) : TraceItem
  | slept (seconds : ℚ) : TraceItem
deriving DecidableEq, Repr

/-- How one invocation of the undecorated generator body ended. -/
inductive GenResult : Type where
  | completed : GenResult
  | raised (e : HttpxError) : GenResult
  | inputExhausted : GenResult
deriving DecidableEq, Repr

/-- The `while True` connection loop of `stream_build_logs` (one invocation
of the generator body, before the `attempts` decorator). Each iteration
issues a request whose `last_id` query parameter is `last_id` when truthy
(`params = {"last_id": last_id} if last_id else None`) and `none`
otherwise. On a terminal line the generator returns; on a `timeout` line it
sleeps 0.5 s and reconnects with the updated cursor; a clean close raises
`httpx.NetworkError` (the `for ... else` branch) and a mid-read error
propagates. Returns the request parameters issued, the event trace, and
the result. -/
def streamBody :
    List Connection → Option String →
      List (Option String) × List TraceItem × GenResult
  | [], _ => ([], [], .inputExhausted)
  | conn :: rest, last_id =>
      let params := if pyTruthy last_id then last_id else none
      match conn with
      | .fails e => ([params], [], .raised e)
      | .delivers ls ending =>
          let r := readLines ls last_id
          match r.2.2 with
          | .terminal => ([params], r.1.map .yielded, .completed)
          | .timeoutBreak =>
              let next := streamBody rest r.2.1
              (params :: next.1,
               r.1.map .yielded ++ .slept (1 / 2) :: next.2.1,
               next.2.2)
          | .closed =>
              match ending with
              | some e => ([params], r.1.map .yielded, .raised e)
              | none =>
                  ([params], r.1.map .yielded, .raised .networkError)

def STREAM_LOGS_MAX_RETRIES : Nat := 3

/-- Value of `STREAM_LOGS_TIMEOUT = timedelta(minutes=5)`, in seconds. -/
def STREAM_LOGS_TIMEOUT : ℚ := 300

inductive StreamResult : Type where
  | completed : StreamResult
  | timedOut : StreamResult
  | tooManyRetries : StreamResult
  | streamLogError (status_code : Nat) (detail : String) : StreamResult
  | inputExhausted : StreamResult
deriving DecidableEq, Repr

/-- Environment of one outer attempt: the monotonic-clock reading
(`time.monotonic() - start`, seconds) at the top of the loop iteration,
and the connections the network will deliver during this attempt. -/
structure AttemptEnv : Type where
  elapsed : ℚ
  connections : List Connection
deriving DecidableEq, Repr

/-- The `attempts` decorator's loop (api.py lines 121-135):
`for attempt_number in range(total_attempts)`, raising `TimeoutError` when
the clock reading at the top of an iteration exceeds the budget, running
the generator body under `attempt attempt_number`, returning when the body
completes, and raising `TooManyRetriesError` when the range is exhausted.
Each iteration calls the generator function afresh (`last_id` restarts at
`none`). -/
def attemptsLoop (total_attempts : Nat) (timeout : ℚ) :
    Nat → List AttemptEnv →
      List (Option String) × List TraceItem × StreamResult
  | n, envs =>
      if total_attempts ≤ n then ([], [], .tooManyRetries)
      else
        match envs with
        | [] => ([], [], .inputExhausted)
        | env :: rest =>
            if timeout < env.elapsed then ([], [], .timedOut)
            else
              let r := streamBody env.connections none
              match r.2.2 with
              | .completed => (r.1, r.2.1, .completed)
              | .inputExhausted => (r.1, r.2.1, .inputExhausted)
              | .raised e =>
                  match attempt n e with
                  | .retry s =>
                      let next :=
                        attemptsLoop total_attempts timeout (n + 1) rest
                      (r.1 ++ next.1,
                       r.2.1 ++ .slept (s : ℚ) :: next.2.1,
                       next.2.2)
                  | .fatal code body =>
                      (r.1, r.2.1, .streamLogError code body)

/-- The decorated `stream_build_logs`:
`@attempts(STREAM_LOGS_MAX_RETRIES, STREAM_LOGS_TIMEOUT)`. -/
def stream_build_logs (envs : List AttemptEnv) :
    List (Option String) × List TraceItem × StreamResult :=
  attemptsLoop STREAM_LOGS_MAX_RETRIES STREAM_LOGS_TIMEOUT 0 envs

/-! ## Deploy command upload phase (deploy.py lines 69-79 and 765-777) -/

/-- Outbound POST requests of the upload phase. -/
inductive DeployAction : Type where
  | postUpload (deployment_id : String) : DeployAction
  | postArchive (deployment_id : String) : DeployAction
  | postUploadComplete (deployment_id : String) : DeployAction
  | postUploadCancelled (deployment_id : String) : DeployAction
deriving DecidableEq, Repr

/-- Whether the best-effort cancellation POST itself succeeds or raises. -/
inductive NoticeOutcome : Type where
  | ok : NoticeOutcome
  | fails (e : HttpxError) : NoticeOutcome
deriving DecidableEq, Repr

/-- Model of `_cancel_upload`: POST `/deployments/{id}/upload-cancelled` once inside
`try`, with `except Exception` logging and swallowing any failure. Returns
the requests issued and whether an exception escapes (never). -/
def cancel_upload (deployment_id : String) (notice : NoticeOutcome) :
    List DeployAction × Bool :=
  match notice with
  | .ok => ([.postUploadCancelled deployment_id], false)
  | .fails _ => ([.postUploadCancelled deployment_id], false)

/-- The network steps of `_upload_deployment` in order: request the upload
target (`POST /deployments/{id}/upload`), transfer the archive to it, then
confirm (`POST /deployments/{id}/upload-complete`). -/
def upload_deployment_steps (deployment_id : String) : List DeployAction :=
  [.postUpload deployment_id, .postArchive deployment_id,
   .postUploadComplete deployment_id]

inductive PhaseOutcome : Type where
  | ok : PhaseOutcome
  | keyboardInterrupt : PhaseOutcome
deriving DecidableEq, Repr

/-- The `try ... except KeyboardInterrupt` block of the deploy command
around `_upload_deployment`: `interruptAfter = none` means the upload ran
to completion; `interruptAfter = some k` means `KeyboardInterrupt` arrived
after `k` of the upload steps, upon which `_cancel_upload` runs and the
interrupt is re-raised (`raise`). -/
def uploadPhase (deployment_id : String) (interruptAfter : Option Nat)
    (notice : NoticeOutcome) : List DeployAction × PhaseOutcome :=
  match interruptAfter with
  | none => (upload_deployment_steps deployment_id, .ok)
  | some k =>
      ((upload_deployment_steps deployment_id).take k ++
        (cancel_upload deployment_id notice).1,
       .keyboardInterrupt)

/-! ## Auxiliary definitions for the statements -/

/-- Raw lines that parse as a valid tagged-union member. -/
def isParsedLine : RawLine → Bool
  | .valid _ => true
  | _ => false

/-- Drop the blank and malformed lines of a connection. -/
def Connection.dropUnparsed : Connection → Connection
  | .fails e => .fails e
  | .delivers ls ending => .delivers (ls.filter isParsedLine) ending

/-- Drop the blank and malformed lines of every connection of an attempt. -/
def AttemptEnv.dropUnparsed (env : AttemptEnv) : AttemptEnv :=
  ⟨env.elapsed, env.connections.map Connection.dropUnparsed⟩

/-- The parsed lines a single read loop observes: valid lines in order,
stopping at (and including) the first `complete`/`failed`/`timeout` line,
since the loop returns or breaks there. -/
def observedParsed : List RawLine → List BuildLogLine
  | [] => []
  | .blank :: rest => observedParsed rest
  | .malformed :: rest => observedParsed rest
  | .valid l :: rest =>
      match l with
      | .message text i => .message text i :: observedParsed rest
      | .heartbeat i => .heartbeat i :: observedParsed rest
      | .complete i => [.complete i]
      | .failed i => [.failed i]
      | .timeout i => [.timeout i]

/-- The cursor the code keeps: fold of `if log_line.id: last_id = log_line.id`
over a list of parsed lines, i.e. the most recent truthy id. -/
def lastTruthyId (ls : List BuildLogLine) (acc : Option String) :
    Option String :=
  ls.foldl (fun acc l => if pyTruthy l.id then l.id else acc) acc

/-- Modelled from the spec: "the most recent non-null `id`" observed on a
list of parsed lines, reading non-null literally as `id is not None`
(an empty-string id is non-null and updates this cursor). -/
def mostRecentNonNullId (ls : List BuildLogLine) : Option String :=
  ls.foldl (fun acc l => if l.id.isSome then l.id else acc) none

/-- A trace contains no yielded terminal event. -/
def cleanTrace (tr : List TraceItem) : Prop :=
  ∀ l, TraceItem.yielded l ∈ tr → isTerminalLine l = false

/-- Counterexample input for the resume-cursor claim: the second message
line carries the non-null but empty id `""`, then a `timeout` line forces
a reconnect. -/
def exC7conn : List RawLine :=
  [.valid (.message "a" (some "x1")), .valid (.message "b" (some "")),
   .valid (.timeout none)]

def exC7 : List AttemptEnv :=
  [⟨0, [.delivers exC7conn none, .delivers [.valid (.complete none)] none]⟩]

/-- Counterexample input for the 0.5-second-delay claim: the first
connection closes without a terminal event, the reconnect succeeds. -/
def exC8 : List AttemptEnv :=
  [⟨0, [.delivers [] none]⟩,
   ⟨10, [.delivers [.valid (.complete none)] none]⟩]

/-! ## Theorems -/

/-- Transient errors are exactly those the `attempt` context manager
retries, with the backoff of the current attempt number. -/
theorem attempt_retry_of_transient (n : Nat) (e : HttpxError)
    (h : isTransient e = true) :
    attempt n e = .retry (backoffSeconds n) := by
  cases e with
  | timeoutException => rfl
  | networkError => rfl
  | remoteProtocolError => rfl
  | httpStatusError code body =>
      simp only [isTransient, decide_eq_true_eq] at h
      simp [attempt, h]

/-- C3: the per-attempt executor classifies network timeouts, connection
errors, protocol errors and HTTP status >= 500 as transient, sleeping
exactly `min(2^n, 30)` seconds before signalling retry; any other HTTP
status error is fatal, propagated without sleeping as a `StreamLogError`
carrying the status code and the body text; the backoff is monotonically
non-decreasing in `n` and capped at 30 seconds. -/
theorem c3_attempt_classification :
    (∀ n, attempt n .timeoutException = .retry (min (2 ^ n) 30) ∧
        attempt n .networkError = .retry (min (2 ^ n) 30) ∧
        attempt n .remoteProtocolError = .retry (min (2 ^ n) 30)) ∧
    (∀ n code body, 500 ≤ code →
        attempt n (.httpStatusError code body) = .retry (min (2 ^ n) 30)) ∧
    (∀ n code body, code < 500 →
        attempt n (.httpStatusError code body) = .fatal code body) ∧
    (∀ m n, m ≤ n → backoffSeconds m ≤ backoffSeconds n) ∧
    (∀ n, backoffSeconds n ≤ 30) := by
  refine ⟨fun n => ⟨rfl, rfl, rfl⟩, fun n code body h => ?_,
    fun n code body h => ?_, fun m n h => ?_, fun n => ?_⟩
  · simp [attempt, backoffSeconds, h]
  · simp [attempt, Nat.not_le.mpr h]
  · exact min_le_min (Nat.pow_le_pow_right (by norm_num) h) le_rfl
  · exact Nat.min_le_right _ _

/-- C3 witness: concrete instances of the hypotheses of
`c3_attempt_classification`. -/
theorem c3_attempt_classification_witness :
    attempt 2 (.httpStatusError 503 "service unavailable") =
      .retry (min (2 ^ 2) 30) ∧
    attempt 1 (.httpStatusError 422 "bad payload") = .fatal 422 "bad payload" ∧
    backoffSeconds 3 ≤ backoffSeconds 7 :=
  ⟨c3_attempt_classification.2.1 2 503 "service unavailable" (by norm_num),
   c3_attempt_classification.2.2.1 1 422 "bad payload" (by norm_num),
   c3_attempt_classification.2.2.2.1 3 7 (by norm_num)⟩

/-- Client errors (HTTP status below 500) are classified fatal, carrying
the status code and the body text. -/
theorem attempt_fatal_of_client (n : Nat) (code : Nat) (body : String)
    (h : code < 500) :
    attempt n (.httpStatusError code body) = .fatal code body := by
  simp [attempt, Nat.not_le.mpr h]

/-- Unfolding of one `poll_deployment_status` loop iteration. -/
theorem poll_deployment_status_cons (elapsed : ℚ) (outcome : PollOutcome)
    (rest : List (ℚ × PollOutcome)) (ec : Nat) :
    poll_deployment_status ((elapsed, outcome) :: rest) ec =
      if POLL_TIMEOUT < elapsed then (.timedOut, [])
      else
        match outcome with
        | .ok status =>
            if status ∈ TERMINAL_STATUSES then (.returned status, [])
            else
              ((poll_deployment_status rest 0).1,
               POLL_INTERVAL :: (poll_deployment_status rest 0).2)
        | .err e =>
            match attempt ec e with
            | .retry s =>
                if POLL_MAX_RETRIES ≤ ec + 1 then
                  (.tooManyRetries, [(s : ℚ)])
                else
                  ((poll_deployment_status rest (ec + 1)).1,
                   (s : ℚ) :: (poll_deployment_status rest (ec + 1)).2)
            | .fatal code body => (.streamLogError code body, []) := rfl

/-- The poller returns a status only when that status is terminal,
whatever the environment does. -/
theorem poll_returned_terminal :
    ∀ (l : List (ℚ × PollOutcome)) (ec : Nat) (s : DeploymentStatus),
      (poll_deployment_status l ec).1 = .returned s →
      s ∈ TERMINAL_STATUSES := by
  intro l
  induction l with
  | nil => intro ec s h; simp [poll_deployment_status] at h
  | cons x rest ih =>
      intro ec s h
      obtain ⟨elapsed, outcome⟩ := x
      rw [poll_deployment_status_cons] at h
      by_cases ht : POLL_TIMEOUT < elapsed
      · simp [ht] at h
      · rw [if_neg ht] at h
        match outcome with
        | .ok status =>
            by_cases hterm : status ∈ TERMINAL_STATUSES
            · simp only [if_pos hterm] at h
              cases h
              exact hterm
            · simp only [if_neg hterm] at h
              exact ih 0 s h
        | .err e =>
            match hc : attempt ec e with
            | .retry sl =>
                simp only [hc] at h
                by_cases hr : POLL_MAX_RETRIES ≤ ec + 1
                · simp [hr] at h
                · simp only [if_neg hr] at h
                  exact ih (ec + 1) s h
            | .fatal code body => simp [hc] at h

/-- Characterization of error-free in-budget runs: on a list of fetched
statuses (clock within budget, every GET succeeding), the poller sleeps
`POLL_INTERVAL` once per non-terminal status until the first terminal
status, which it returns. -/
theorem poll_ok_run :
    ∀ (entries : List (ℚ × DeploymentStatus)) (ec : Nat),
      (∀ e ∈ entries, e.1 ≤ POLL_TIMEOUT) →
      poll_deployment_status
          (entries.map fun e => (e.1, PollOutcome.ok e.2)) ec =
        ((match (entries.map Prod.snd).find?
              (fun s => decide (s ∈ TERMINAL_STATUSES)) with
          | some s => PollResult.returned s
          | none => .inputExhausted),
         List.replicate
           ((entries.map Prod.snd).takeWhile
             (fun s => !decide (s ∈ TERMINAL_STATUSES))).length
           POLL_INTERVAL) := by
  intro entries
  induction entries with
  | nil => intro ec h; simp [poll_deployment_status]
  | cons x rest ih =>
      intro ec h
      obtain ⟨elapsed, status⟩ := x
      have hx : elapsed ≤ POLL_TIMEOUT := h (elapsed, status) (by simp)
      have hrest : ∀ e ∈ rest, e.1 ≤ POLL_TIMEOUT :=
        fun e he => h e (List.mem_cons_of_mem _ he)
      rw [List.map_cons, poll_deployment_status_cons, if_neg (not_lt.mpr hx)]
      by_cases hterm : status ∈ TERMINAL_STATUSES
      · simp [hterm, List.find?_cons, List.takeWhile]
      · simp only [if_neg hterm, ih 0 hrest]
        simp [List.find?_cons, List.takeWhile, hterm, List.replicate]

/-- C2: `poll_deployment_status` returns a status if and only if that
status is in `{success, verifying_skipped, failed, verifying_failed,
deploying_failed, building_image_failed, extracting_failed}`; on an
error-free in-budget run it sleeps 2 seconds after each non-terminal
status and the value returned is the first terminal status observed. -/
theorem c2_poll_terminal_classification :
    (TERMINAL_STATUSES =
      [.success, .verifying_skipped, .failed, .verifying_failed,
       .deploying_failed, .building_image_failed, .extracting_failed]) ∧
    (∀ l ec s, (poll_deployment_status l ec).1 = .returned s →
        s ∈ TERMINAL_STATUSES) ∧
    (∀ (entries : List (ℚ × DeploymentStatus)) ec,
        (∀ e ∈ entries, e.1 ≤ POLL_TIMEOUT) →
        poll_deployment_status
            (entries.map fun e => (e.1, PollOutcome.ok e.2)) ec =
          ((match (entries.map Prod.snd).find?
                (fun s => decide (s ∈ TERMINAL_STATUSES)) with
            | some s => PollResult.returned s
            | none => .inputExhausted),
           List.replicate
             ((entries.map Prod.snd).takeWhile
               (fun s => !decide (s ∈ TERMINAL_STATUSES))).length
             POLL_INTERVAL)) :=
  ⟨rfl, poll_returned_terminal, poll_ok_run⟩

/-- C2 witness: the poller observes `building`, `building`, `success`
within the budget, returns `success` and slept 2 seconds twice. -/
theorem c2_poll_terminal_classification_witness :
    poll_deployment_status
        ([((0 : ℚ), DeploymentStatus.building), (2, .building),
          (4, .success)].map fun e => (e.1, PollOutcome.ok e.2)) 0 =
      (.returned .success, List.replicate 2 POLL_INTERVAL) := by
  have h := c2_poll_terminal_classification.2.2
    [((0 : ℚ), DeploymentStatus.building), (2, .building), (4, .success)] 0
    (by intro e he; fin_cases he <;> norm_num [POLL_TIMEOUT])
  simpa using h

/-- C5: each transient poll failure backs off and increments the
consecutive-error counter, each successful poll resets the counter to
zero, five consecutive failures raise `TooManyRetriesError`, elapsed time
above 120 seconds raises `TimeoutError` regardless of the counter, and a
fatal error aborts immediately. -/
theorem c5_poll_error_handling :
    (∀ (elapsed : ℚ) rest ec e, elapsed ≤ POLL_TIMEOUT →
        isTransient e = true → ec + 1 < POLL_MAX_RETRIES →
        poll_deployment_status ((elapsed, .err e) :: rest) ec =
          ((poll_deployment_status rest (ec + 1)).1,
           (backoffSeconds ec : ℚ) ::
             (poll_deployment_status rest (ec + 1)).2)) ∧
    (∀ (elapsed : ℚ) rest ec s, elapsed ≤ POLL_TIMEOUT →
        s ∉ TERMINAL_STATUSES →
        poll_deployment_status ((elapsed, .ok s) :: rest) ec =
          ((poll_deployment_status rest 0).1,
           POLL_INTERVAL :: (poll_deployment_status rest 0).2)) ∧
    (∀ rest, poll_deployment_status
        (List.replicate 5 ((0 : ℚ), PollOutcome.err .networkError) ++ rest)
        0 = (.tooManyRetries, [1, 2, 4, 8, 16])) ∧
    (∀ (x : ℚ × PollOutcome) rest ec, POLL_TIMEOUT < x.1 →
        poll_deployment_status (x :: rest) ec = (.timedOut, [])) ∧
    (∀ (elapsed : ℚ) rest ec code body, elapsed ≤ POLL_TIMEOUT →
        code < 500 →
        poll_deployment_status
            ((elapsed, .err (.httpStatusError code body)) :: rest) ec =
          (.streamLogError code body, [])) := by
  refine ⟨?_, ?_, ?_, ?_, ?_⟩
  · intro elapsed rest ec e h1 h2 h3
    rw [poll_deployment_status_cons, if_neg (not_lt.mpr h1)]
    simp only [attempt_retry_of_transient ec e h2, if_neg (Nat.not_le.mpr h3)]
  · intro elapsed rest ec s h1 h2
    rw [poll_deployment_status_cons, if_neg (not_lt.mpr h1)]
    simp only [if_neg h2]
  · intro rest
    have htr : isTransient .networkError = true := rfl
    have step : ∀ (l : List (ℚ × PollOutcome)) (ec : Nat),
        ec + 1 < POLL_MAX_RETRIES →
        poll_deployment_status (((0 : ℚ), PollOutcome.err .networkError) :: l)
            ec =
          ((poll_deployment_status l (ec + 1)).1,
           (backoffSeconds ec : ℚ) :: (poll_deployment_status l (ec + 1)).2) := by
      intro l ec h
      rw [poll_deployment_status_cons,
        if_neg (not_lt.mpr (by norm_num [POLL_TIMEOUT]))]
      simp only [attempt_retry_of_transient ec _ htr, if_neg (Nat.not_le.mpr h)]
    have last : ∀ (l : List (ℚ × PollOutcome)),
        poll_deployment_status (((0 : ℚ), PollOutcome.err .networkError) :: l)
            4 = (.tooManyRetries, [16]) := by
      intro l
      rw [poll_deployment_status_cons,
        if_neg (not_lt.mpr (by norm_num [POLL_TIMEOUT]))]
      simp only [attempt_retry_of_transient 4 _ htr,
        if_pos (show POLL_MAX_RETRIES ≤ 4 + 1 by norm_num [POLL_MAX_RETRIES])]
      norm_num [backoffSeconds]
    simp only [List.replicate, List.cons_append, List.nil_append]
    rw [step _ 0 (by norm_num [POLL_MAX_RETRIES]),
      step _ 1 (by norm_num [POLL_MAX_RETRIES]),
      step _ 2 (by norm_num [POLL_MAX_RETRIES]),
      step _ 3 (by norm_num [POLL_MAX_RETRIES]), last]
    norm_num [backoffSeconds]
  · intro x rest ec h
    obtain ⟨elapsed, outcome⟩ := x
    rw [poll_deployment_status_cons, if_pos h]
  · intro elapsed rest ec code body h1 h2
    rw [poll_deployment_status_cons, if_neg (not_lt.mpr h1)]
    simp only [attempt_fatal_of_client ec code body h2]

/-- C5 witness: concrete instances of every conjunct of
`c5_poll_error_handling`. -/
theorem c5_poll_error_handling_witness :
    (poll_deployment_status [((0 : ℚ), .err .timeoutException)] 1 =
      ((poll_deployment_status [] 2).1,
       (backoffSeconds 1 : ℚ) :: (poll_deployment_status [] 2).2)) ∧
    (poll_deployment_status [((0 : ℚ), .ok .building)] 3 =
      ((poll_deployment_status [] 0).1,
       POLL_INTERVAL :: (poll_deployment_status [] 0).2)) ∧
    (poll_deployment_status
        (List.replicate 5 ((0 : ℚ), PollOutcome.err .networkError) ++ []) 0 =
      (.tooManyRetries, [1, 2, 4, 8, 16])) ∧
    (poll_deployment_status [((121 : ℚ), .ok .success)] 0 =
      (.timedOut, [])) ∧
    (poll_deployment_status [((0 : ℚ), .err (.httpStatusError 404 "nope"))]
        2 = (.streamLogError 404 "nope", [])) :=
  ⟨c5_poll_error_handling.1 0 [] 1 .timeoutException
      (by norm_num [POLL_TIMEOUT]) rfl (by norm_num [POLL_MAX_RETRIES]),
   c5_poll_error_handling.2.1 0 [] 3 .building
      (by norm_num [POLL_TIMEOUT]) (by decide),
   c5_poll_error_handling.2.2.1 [],
   c5_poll_error_handling.2.2.2.1 (121, .ok .success) [] 0
      (by norm_num [POLL_TIMEOUT]),
   c5_poll_error_handling.2.2.2.2 0 [] 2 404 "nope"
      (by norm_num [POLL_TIMEOUT]) (by norm_num)⟩

/-! ### Read-loop lemmas -/

theorem readLines_message (t : String) (i : Option String)
    (rest : List RawLine) (lid : Option String) :
    readLines (.valid (.message t i) :: rest) lid =
      (BuildLogLine.message t i ::
         (readLines rest (if pyTruthy i then i else lid)).1,
       (readLines rest (if pyTruthy i then i else lid)).2) := rfl

theorem readLines_heartbeat (i : Option String)
    (rest : List RawLine) (lid : Option String) :
    readLines (.valid (.heartbeat i) :: rest) lid =
      readLines rest (if pyTruthy i then i else lid) := rfl

theorem readLines_complete (i : Option String)
    (rest : List RawLine) (lid : Option String) :
    readLines (.valid (.complete i) :: rest) lid =
      ([.complete i], if pyTruthy i then i else lid, .terminal) := rfl

theorem readLines_failed (i : Option String)
    (rest : List RawLine) (lid : Option String) :
    readLines (.valid (.failed i) :: rest) lid =
      ([.failed i], if pyTruthy i then i else lid, .terminal) := rfl

theorem readLines_timeout (i : Option String)
    (rest : List RawLine) (lid : Option String) :
    readLines (.valid (.timeout i) :: rest) lid =
      ([], if pyTruthy i then i else lid, .timeoutBreak) := rfl

/-- Shape of one read loop: when it exits on a terminal line, the yields
are non-terminal lines followed by that one terminal line; on any other
exit every yielded line is non-terminal. -/
theorem readLines_shape (ls : List RawLine) (lid : Option String) :
    ((readLines ls lid).2.2 = .terminal →
      ∃ ys0 l, (readLines ls lid).1 = ys0 ++ [l] ∧
        isTerminalLine l = true ∧ ∀ x ∈ ys0, isTerminalLine x = false) ∧
    ((readLines ls lid).2.2 ≠ .terminal →
      ∀ x ∈ (readLines ls lid).1, isTerminalLine x = false) := by
  induction ls generalizing lid with
  | nil =>
      refine ⟨fun h => ?_, fun _ x hx => ?_⟩
      · simp [readLines] at h
      · simp [readLines] at hx
  | cons r rest ih =>
      cases r with
      | blank => simpa [readLines] using ih lid
      | malformed => simpa [readLines] using ih lid
      | valid l =>
          cases l with
          | message t i =>
              rw [readLines_message]
              refine ⟨fun h => ?_, fun h x hx => ?_⟩
              · obtain ⟨ys0, l, heq, hterm, hclean⟩ :=
                  ((ih (if pyTruthy i then i else lid)).1) h
                refine ⟨.message t i :: ys0, l, by simp [heq], hterm, ?_⟩
                intro x hx
                rcases List.mem_cons.mp hx with hx | hx
                · subst hx; rfl
                · exact hclean x hx
              · rcases List.mem_cons.mp hx with hx | hx
                · subst hx; rfl
                · exact ((ih (if pyTruthy i then i else lid)).2) h x hx
          | heartbeat i =>
              rw [readLines_heartbeat]
              exact ih (if pyTruthy i then i else lid)
          | complete i =>
              rw [readLines_complete]
              exact ⟨fun _ => ⟨[], .complete i, rfl, rfl, by simp⟩,
                fun h => absurd rfl h⟩
          | failed i =>
              rw [readLines_failed]
              exact ⟨fun _ => ⟨[], .failed i, rfl, rfl, by simp⟩,
                fun h => absurd rfl h⟩
          | timeout i =>
              rw [readLines_timeout]
              exact ⟨fun h => by simp at h, fun _ x hx => by simp at hx⟩

/-- Every line the read loop yields is a valid line of its input. -/
theorem readLines_yield_mem (ls : List RawLine) (lid : Option String) :
    ∀ y ∈ (readLines ls lid).1, RawLine.valid y ∈ ls := by
  induction ls generalizing lid with
  | nil => intro y hy; simp [readLines] at hy
  | cons r rest ih =>
      cases r with
      | blank =>
          intro y hy
          exact List.mem_cons_of_mem _ (ih lid y (by simpa [readLines] using hy))
      | malformed =>
          intro y hy
          exact List.mem_cons_of_mem _ (ih lid y (by simpa [readLines] using hy))
      | valid l =>
          cases l with
          | message t i =>
              intro y hy
              rw [readLines_message] at hy
              rcases List.mem_cons.mp hy with hy | hy
              · subst hy; exact List.mem_cons_self _ _
              · exact List.mem_cons_of_mem _
                  (ih (if pyTruthy i then i else lid) y hy)
          | heartbeat i =>
              intro y hy
              rw [readLines_heartbeat] at hy
              exact List.mem_cons_of_mem _
                (ih (if pyTruthy i then i else lid) y hy)
          | complete i =>
              intro y hy
              rw [readLines_complete] at hy
              rcases List.mem_singleton.mp hy with rfl
              exact List.mem_cons_self _ _
          | failed i =>
              intro y hy
              rw [readLines_failed] at hy
              rcases List.mem_singleton.mp hy with rfl
              exact List.mem_cons_self _ _
          | timeout i =>
              intro y hy
              rw [readLines_timeout] at hy
              simp at hy

/-! ### Connection-loop lemmas -/

theorem streamBody_fails (e : HttpxError) (rest : List Connection)
    (lid : Option String) :
    streamBody (.fails e :: rest) lid =
      ([if pyTruthy lid then lid else none], [], .raised e) := rfl

theorem streamBody_delivers (ls : List RawLine) (ending : Option HttpxError)
    (rest : List Connection) (lid : Option String) :
    streamBody (.delivers ls ending :: rest) lid =
      (match (readLines ls lid).2.2 with
       | .terminal =>
           ([if pyTruthy lid then lid else none],
            (readLines ls lid).1.map .yielded, .completed)
       | .timeoutBreak =>
           ((if pyTruthy lid then lid else none) ::
              (streamBody rest (readLines ls lid).2.1).1,
            (readLines ls lid).1.map .yielded ++
              .slept (1 / 2) :: (streamBody rest (readLines ls lid).2.1).2.1,
            (streamBody rest (readLines ls lid).2.1).2.2)
       | .closed =>
           match ending with
           | some e =>
               ([if pyTruthy lid then lid else none],
                (readLines ls lid).1.map .yielded, .raised e)
           | none =>
               ([if pyTruthy lid then lid else none],
                (readLines ls lid).1.map .yielded,
                .raised .networkError)) := rfl

theorem cleanTrace_nil : cleanTrace [] := by
  intro l hl; simp at hl

theorem cleanTrace_append (a b : List TraceItem) :
    cleanTrace (a ++ b) ↔ cleanTrace a ∧ cleanTrace b := by
  constructor
  · intro h
    exact ⟨fun l hl => h l (List.mem_append_left _ hl),
      fun l hl => h l (List.mem_append_right _ hl)⟩
  · rintro ⟨ha, hb⟩ l hl
    rcases List.mem_append.mp hl with hl | hl
    · exact ha l hl
    · exact hb l hl

theorem cleanTrace_slept (s : ℚ) (tr : List TraceItem) :
    cleanTrace (.slept s :: tr) ↔ cleanTrace tr := by
  constructor
  · intro h l hl; exact h l (List.mem_cons_of_mem _ hl)
  · intro h l hl
    rcases List.mem_cons.mp hl with hl | hl
    · cases hl
    · exact h l hl

theorem cleanTrace_map_yielded (ys : List BuildLogLine)
    (h : ∀ x ∈ ys, isTerminalLine x = false) :
    cleanTrace (ys.map .yielded) := by
  intro l hl
  rcases List.mem_map.mp hl with ⟨x, hx, hxl⟩
  cases hxl
  exact h _ hx

/-- Shape of one generator-body invocation: when it completes, the trace
is non-terminal events followed by one terminal yield; otherwise no
terminal event is ever yielded. -/
theorem streamBody_shape (cs : List Connection) (lid : Option String) :
    ((streamBody cs lid).2.2 = .completed →
      ∃ tr0 l, (streamBody cs lid).2.1 = tr0 ++ [.yielded l] ∧
        isTerminalLine l = true ∧ cleanTrace tr0) ∧
    ((streamBody cs lid).2.2 ≠ .completed →
      cleanTrace (streamBody cs lid).2.1) := by
  induction cs generalizing lid with
  | nil =>
      refine ⟨fun h => ?_, fun _ => ?_⟩
      · simp [streamBody] at h
      · exact cleanTrace_nil
  | cons conn rest ih =>
      cases conn with
      | fails e =>
          rw [streamBody_fails]
          exact ⟨fun h => by simp at h, fun _ => cleanTrace_nil⟩
      | delivers ls ending =>
          rw [streamBody_delivers]
          rcases hex : (readLines ls lid).2.2 with _ | _ | _
          · simp only
            refine ⟨fun _ => ?_, fun h => absurd rfl h⟩
            obtain ⟨ys0, l, heq, hterm, hclean⟩ := (readLines_shape ls lid).1 hex
            refine ⟨ys0.map .yielded, l, ?_, hterm, cleanTrace_map_yielded _ hclean⟩
            rw [heq]
            simp
          · simp only
            have hys := (readLines_shape ls lid).2 (by rw [hex]; intro h; cases h)
            refine ⟨fun h => ?_, fun h => ?_⟩
            · obtain ⟨tr0, l, heq, hterm, hclean⟩ :=
                (ih (readLines ls lid).2.1).1 h
              refine ⟨(readLines ls lid).1.map .yielded ++ .slept (1 / 2) :: tr0,
                l, ?_, hterm, ?_⟩
              · rw [heq]; simp
              · rw [cleanTrace_append, cleanTrace_slept]
                exact ⟨cleanTrace_map_yielded _ hys, hclean⟩
            · rw [cleanTrace_append, cleanTrace_slept]
              exact ⟨cleanTrace_map_yielded _ hys,
                (ih (readLines ls lid).2.1).2 h⟩
          · have hys := (readLines_shape ls lid).2 (by rw [hex]; intro h; cases h)
            cases ending with
            | some e =>
                simp only
                exact ⟨fun h => by simp at h,
                  fun _ => cleanTrace_map_yielded _ hys⟩
            | none =>
                simp only
                exact ⟨fun h => by simp at h,
                  fun _ => cleanTrace_map_yielded _ hys⟩

/-! ### Attempt-loop lemmas -/

theorem attemptsLoop_eq (total : Nat) (timeout : ℚ) (n : Nat)
    (envs : List AttemptEnv) :
    attemptsLoop total timeout n envs =
      if total ≤ n then ([], [], .tooManyRetries)
      else
        match envs with
        | [] => ([], [], .inputExhausted)
        | env :: rest =>
            if timeout < env.elapsed then ([], [], .timedOut)
            else
              match (streamBody env.connections none).2.2 with
              | .completed =>
                  ((streamBody env.connections none).1,
                   (streamBody env.connections none).2.1, .completed)
              | .inputExhausted =>
                  ((streamBody env.connections none).1,
                   (streamBody env.connections none).2.1, .inputExhausted)
              | .raised e =>
                  match attempt n e with
                  | .retry s =>
                      ((streamBody env.connections none).1 ++
                         (attemptsLoop total timeout (n + 1) rest).1,
                       (streamBody env.connections none).2.1 ++
                         .slept (s : ℚ) ::
                           (attemptsLoop total timeout (n + 1) rest).2.1,
                       (attemptsLoop total timeout (n + 1) rest).2.2)
                  | .fatal code body =>
                      ((streamBody env.connections none).1,
                       (streamBody env.connections none).2.1,
                       .streamLogError code body) := by
  rw [attemptsLoop.eq_def]

/-- Shape of the decorated stream: when the loop reports `completed`, the
trace is non-terminal events followed by one terminal yield; on every
other outcome no terminal event is ever yielded. -/
theorem attemptsLoop_shape (total : Nat) (timeout : ℚ)
    (envs : List AttemptEnv) (n : Nat) :
    ((attemptsLoop total timeout n envs).2.2 = .completed →
      ∃ tr0 l, (attemptsLoop total timeout n envs).2.1 =
          tr0 ++ [.yielded l] ∧
        isTerminalLine l = true ∧ cleanTrace tr0) ∧
    ((attemptsLoop total timeout n envs).2.2 ≠ .completed →
      cleanTrace (attemptsLoop total timeout n envs).2.1) := by
  induction envs generalizing n with
  | nil =>
      rw [attemptsLoop_eq]
      by_cases h : total ≤ n
      · simp only [if_pos h]
        exact ⟨fun h => by simp at h, fun _ => cleanTrace_nil⟩
      · simp only [if_neg h]
        exact ⟨fun h => by simp at h, fun _ => cleanTrace_nil⟩
  | cons env rest ih =>
      rw [attemptsLoop_eq]
      by_cases hn : total ≤ n
      · simp only [if_pos hn]
        exact ⟨fun h => by simp at h, fun _ => cleanTrace_nil⟩
      · simp only [if_neg hn]
        by_cases ht : timeout < env.elapsed
        · simp only [if_pos ht]
          exact ⟨fun h => by simp at h, fun _ => cleanTrace_nil⟩
        · simp only [if_neg ht]
          rcases hres : (streamBody env.connections none).2.2 with _ | e | _
          · simp only
            exact ⟨fun _ => (streamBody_shape env.connections none).1 hres,
              fun h => absurd rfl h⟩
          · have hclean := (streamBody_shape env.connections none).2
              (by rw [hres]; intro h; cases h)
            rcases hsig : attempt n e with ⟨s⟩ | ⟨code, body⟩
            · simp only [hsig]
              refine ⟨fun h => ?_, fun h => ?_⟩
              · obtain ⟨tr0, l, heq, hterm, htr0⟩ := (ih (n + 1)).1 h
                refine ⟨(streamBody env.connections none).2.1 ++
                    .slept (s : ℚ) :: tr0, l, ?_, hterm, ?_⟩
                · rw [heq]; simp
                · rw [cleanTrace_append, cleanTrace_slept]
                  exact ⟨hclean, htr0⟩
              · rw [cleanTrace_append, cleanTrace_slept]
                exact ⟨hclean, (ih (n + 1)).2 h⟩
            · simp only [hsig]
              exact ⟨fun h => by simp at h, fun _ => hclean⟩
          · have hclean := (streamBody_shape env.connections none).2
              (by rw [hres]; intro h; cases h)
            simp only
            exact ⟨fun h => by simp at h, fun _ => hclean⟩

/-- Splitting a list that ends in its only occurrence of a distinguished
element: if `t ++ [x] = pre ++ y :: post` and `y` is not in `t`, then the
split points coincide. -/
theorem append_singleton_split {α : Type} (t : List α) (x : α) :
    ∀ (pre : List α) (y : α) (post : List α),
      t ++ [x] = pre ++ y :: post → y ∉ t →
      y = x ∧ post = [] ∧ pre = t := by
  induction t with
  | nil =>
      intro pre y post heq _
      cases pre with
      | nil =>
          simp only [List.nil_append] at heq
          cases heq
          exact ⟨rfl, rfl, rfl⟩
      | cons p pre' =>
          simp only [List.nil_append, List.cons_append] at heq
          injection heq with h1 h2
          have hlen := congrArg List.length h2
          simp only [List.length_nil, List.length_append, List.length_cons]
            at hlen
          omega
  | cons a t' ih =>
      intro pre y post heq hy
      cases pre with
      | nil =>
          simp only [List.cons_append, List.nil_append] at heq
          cases heq
          exact absurd (List.mem_cons_self _ _) hy
      | cons p pre' =>
          simp only [List.cons_append] at heq
          obtain ⟨rfl, heq'⟩ := List.cons.inj heq
          obtain ⟨h1, h2, h3⟩ :=
            ih pre' y post heq' (fun hmem => hy (List.mem_cons_of_mem _ hmem))
          exact ⟨h1, h2, by rw [h3]⟩

/-- C1: once `stream_build_logs` yields an event whose type is `complete`
or `failed`, the generator returns (`completed`) and produces no further
events of any kind: the terminal yield is the last trace item. -/
theorem c1_terminal_event_ends_stream (envs : List AttemptEnv)
    (pre : List TraceItem) (l : BuildLogLine) (post : List TraceItem)
    (heq : (stream_build_logs envs).2.1 = pre ++ .yielded l :: post)
    (hterm : isTerminalLine l = true) :
    post = [] ∧ (stream_build_logs envs).2.2 = .completed := by
  have hshape := attemptsLoop_shape STREAM_LOGS_MAX_RETRIES
    STREAM_LOGS_TIMEOUT envs 0
  by_cases hc : (stream_build_logs envs).2.2 = .completed
  · obtain ⟨tr0, l', heq', hterm', hclean⟩ := hshape.1 hc
    rw [stream_build_logs] at heq
    rw [heq'] at heq
    have hnot : TraceItem.yielded l ∉ tr0 := by
      intro hmem
      rw [hclean l hmem] at hterm
      cases hterm
    obtain ⟨_, h2, _⟩ :=
      append_singleton_split tr0 (.yielded l') pre (.yielded l) post
        heq hnot
    exact ⟨h2, hc⟩
  · exfalso
    have hclean := hshape.2 (by rw [← stream_build_logs]; exact hc)
    rw [← stream_build_logs] at hclean
    have hmem : TraceItem.yielded l ∈ (stream_build_logs envs).2.1 := by
      rw [heq]
      exact List.mem_append_right _ (List.mem_cons_self _ _)
    rw [hclean l hmem] at hterm
    cases hterm

/-- C1 witness: the spec scenario `message`, `message`, `complete` —
applying `c1_terminal_event_ends_stream` at the terminal yield. -/
theorem c1_terminal_event_ends_stream_witness :
    ([] : List TraceItem) = [] ∧
      (stream_build_logs
        [⟨0, [.delivers
          [.valid (.message "Building..." none), .valid (.message "Done" none),
           .valid (.complete none)] none]⟩]).2.2 = .completed :=
  c1_terminal_event_ends_stream
    [⟨0, [.delivers
      [.valid (.message "Building..." none), .valid (.message "Done" none),
       .valid (.complete none)] none]⟩]
    [.yielded (.message "Building..." none), .yielded (.message "Done" none)]
    (.complete none) [] (by rfl) (by rfl)

/-! ### Malformed-line transparency -/

/-- Blank and malformed lines are invisible to the read loop. -/
theorem readLines_filter (ls : List RawLine) (lid : Option String) :
    readLines (ls.filter isParsedLine) lid = readLines ls lid := by
  induction ls generalizing lid with
  | nil => rfl
  | cons r rest ih =>
      cases r with
      | blank =>
          rw [show (RawLine.blank :: rest).filter isParsedLine =
              rest.filter isParsedLine from rfl,
            show readLines (.blank :: rest) lid = readLines rest lid from rfl]
          exact ih lid
      | malformed =>
          rw [show (RawLine.malformed :: rest).filter isParsedLine =
              rest.filter isParsedLine from rfl,
            show readLines (.malformed :: rest) lid =
              readLines rest lid from rfl]
          exact ih lid
      | valid l =>
          rw [show (RawLine.valid l :: rest).filter isParsedLine =
              .valid l :: rest.filter isParsedLine from rfl]
          cases l with
          | message t i => rw [readLines_message, readLines_message, ih]
          | heartbeat i => rw [readLines_heartbeat, readLines_heartbeat, ih]
          | complete i => rw [readLines_complete, readLines_complete]
          | failed i => rw [readLines_failed, readLines_failed]
          | timeout i => rw [readLines_timeout, readLines_timeout]

/-- Blank and malformed lines are invisible to the connection loop. -/
theorem streamBody_dropUnparsed (cs : List Connection) (lid : Option String) :
    streamBody (cs.map Connection.dropUnparsed) lid = streamBody cs lid := by
  induction cs generalizing lid with
  | nil => rfl
  | cons conn rest ih =>
      cases conn with
      | fails e =>
          rw [List.map_cons,
            show Connection.dropUnparsed (.fails e) = .fails e from rfl,
            streamBody_fails, streamBody_fails]
      | delivers ls ending =>
          rw [List.map_cons,
            show Connection.dropUnparsed (.delivers ls ending) =
              .delivers (ls.filter isParsedLine) ending from rfl,
            streamBody_delivers, streamBody_delivers, readLines_filter]
          rcases (readLines ls lid).2.2 with _ | _ | _
          · rfl
          · simp only [ih]
          · rfl

/-- Blank and malformed lines are invisible to the whole decorated
stream. -/
theorem attemptsLoop_dropUnparsed (total : Nat) (timeout : ℚ)
    (envs : List AttemptEnv) (n : Nat) :
    attemptsLoop total timeout n (envs.map AttemptEnv.dropUnparsed) =
      attemptsLoop total timeout n envs := by
  induction envs generalizing n with
  | nil => rfl
  | cons env rest ih =>
      rw [List.map_cons, attemptsLoop_eq, attemptsLoop_eq]
      by_cases hn : total ≤ n
      · simp only [if_pos hn]
      · simp only [if_neg hn, AttemptEnv.dropUnparsed,
          streamBody_dropUnparsed, ih]

/-- C6: lines that are empty or fail to parse are logged and skipped
without raising: a run over any input behaves identically — same yields in
the same order, same sleeps, same requests, same result — to the run over
the input with the blank and malformed lines removed, so every later valid
line is still delivered. -/
theorem c6_malformed_lines_skipped :
    (∀ ls lid, readLines (ls.filter isParsedLine) lid = readLines ls lid) ∧
    (∀ envs, stream_build_logs (envs.map AttemptEnv.dropUnparsed) =
        stream_build_logs envs) :=
  ⟨readLines_filter,
   fun envs => attemptsLoop_dropUnparsed STREAM_LOGS_MAX_RETRIES
     STREAM_LOGS_TIMEOUT envs 0⟩

/-! ### Outer attempt budget -/

/-- One outer iteration whose connection fails with a transient error:
the request is issued, the Executor backs off, and the loop moves to
attempt `n + 1`. -/
theorem attemptsLoop_transient_step (total : Nat) (timeout : ℚ) (n : Nat)
    (env : AttemptEnv) (rest : List AttemptEnv) (e : HttpxError)
    (hn : n < total) (ht : env.elapsed ≤ timeout)
    (hconn : env.connections = [.fails e]) (htr : isTransient e = true) :
    attemptsLoop total timeout n (env :: rest) =
      (none :: (attemptsLoop total timeout (n + 1) rest).1,
       .slept ((backoffSeconds n : ℚ)) ::
         (attemptsLoop total timeout (n + 1) rest).2.1,
       (attemptsLoop total timeout (n + 1) rest).2.2) := by
  rw [attemptsLoop_eq, if_neg (Nat.not_le.mpr hn)]
  simp only [if_neg (not_lt.mpr ht), hconn, streamBody_fails,
    attempt_retry_of_transient n e htr, pyTruthy]
  rfl

/-- C4: the build-log attempt loop is bounded by `max_attempts = 3` and
`max_duration = 5 minutes` (300 s); three consecutive transient failures
exhaust the attempt budget and raise `TooManyRetriesError`, and a clock
reading beyond the budget raises `TimeoutError`; both are final results of
the stream. -/
theorem c4_retry_and_time_budget :
    (STREAM_LOGS_MAX_RETRIES = 3 ∧ STREAM_LOGS_TIMEOUT = 300) ∧
    (∀ (q1 q2 q3 : ℚ) (e1 e2 e3 : HttpxError) (rest : List AttemptEnv),
        q1 ≤ STREAM_LOGS_TIMEOUT → q2 ≤ STREAM_LOGS_TIMEOUT →
        q3 ≤ STREAM_LOGS_TIMEOUT → isTransient e1 = true →
        isTransient e2 = true → isTransient e3 = true →
        stream_build_logs
            (⟨q1, [.fails e1]⟩ :: ⟨q2, [.fails e2]⟩ :: ⟨q3, [.fails e3]⟩ ::
              rest) =
          ([none, none, none],
           [.slept ((backoffSeconds 0 : ℚ)), .slept ((backoffSeconds 1 : ℚ)),
            .slept ((backoffSeconds 2 : ℚ))],
           .tooManyRetries)) ∧
    (∀ env rest, STREAM_LOGS_TIMEOUT < env.elapsed →
        stream_build_logs (env :: rest) = ([], [], .timedOut)) := by
  refine ⟨⟨rfl, rfl⟩, ?_, ?_⟩
  · intro q1 q2 q3 e1 e2 e3 rest h1 h2 h3 ht1 ht2 ht3
    rw [stream_build_logs,
      attemptsLoop_transient_step _ _ 0 _ _ e1
        (by norm_num [STREAM_LOGS_MAX_RETRIES]) h1 rfl ht1,
      attemptsLoop_transient_step _ _ 1 _ _ e2
        (by norm_num [STREAM_LOGS_MAX_RETRIES]) h2 rfl ht2,
      attemptsLoop_transient_step _ _ 2 _ _ e3
        (by norm_num [STREAM_LOGS_MAX_RETRIES]) h3 rfl ht3,
      attemptsLoop_eq,
      if_pos (show STREAM_LOGS_MAX_RETRIES ≤ 2 + 1 by
        norm_num [STREAM_LOGS_MAX_RETRIES])]
  · intro env rest h
    rw [stream_build_logs, attemptsLoop_eq,
      if_neg (show ¬STREAM_LOGS_MAX_RETRIES ≤ 0 by
        norm_num [STREAM_LOGS_MAX_RETRIES])]
    simp only [if_pos h]

/-- C4 witness: three consecutive connection errors within budget raise
`TooManyRetriesError`; a clock reading of 301 s raises `TimeoutError`. -/
theorem c4_retry_and_time_budget_witness :
    (stream_build_logs
        [⟨0, [.fails .networkError]⟩, ⟨1, [.fails .networkError]⟩,
         ⟨2, [.fails .networkError]⟩] =
      ([none, none, none],
       [.slept ((backoffSeconds 0 : ℚ)), .slept ((backoffSeconds 1 : ℚ)),
        .slept ((backoffSeconds 2 : ℚ))],
       .tooManyRetries)) ∧
    (stream_build_logs [⟨301, []⟩] = ([], [], .timedOut)) :=
  ⟨c4_retry_and_time_budget.2.1 0 1 2 .networkError .networkError
      .networkError [] (by norm_num [STREAM_LOGS_TIMEOUT])
      (by norm_num [STREAM_LOGS_TIMEOUT])
      (by norm_num [STREAM_LOGS_TIMEOUT]) rfl rfl rfl,
   c4_retry_and_time_budget.2.2 ⟨301, []⟩ []
      (by norm_num [STREAM_LOGS_TIMEOUT])⟩

/-- C10: the 5-minute budget is consulted only at the top of a loop
iteration, before an attempt starts: a reading over budget aborts with
`TimeoutError` and an empty contribution (no request, no event), while an
iteration entered with any in-budget reading runs identically whatever the
reading was — the in-flight attempt is never interrupted by the clock. -/
theorem c10_timeout_only_between_attempts :
    (∀ env rest n, n < STREAM_LOGS_MAX_RETRIES →
        STREAM_LOGS_TIMEOUT < env.elapsed →
        attemptsLoop STREAM_LOGS_MAX_RETRIES STREAM_LOGS_TIMEOUT n
            (env :: rest) = ([], [], .timedOut)) ∧
    (∀ (q1 q2 : ℚ) cs rest n, q1 ≤ STREAM_LOGS_TIMEOUT →
        q2 ≤ STREAM_LOGS_TIMEOUT →
        attemptsLoop STREAM_LOGS_MAX_RETRIES STREAM_LOGS_TIMEOUT n
            (⟨q1, cs⟩ :: rest) =
          attemptsLoop STREAM_LOGS_MAX_RETRIES STREAM_LOGS_TIMEOUT n
            (⟨q2, cs⟩ :: rest)) := by
  constructor
  · intro env rest n hn ht
    rw [attemptsLoop_eq, if_neg (Nat.not_le.mpr hn)]
    simp only [if_pos ht]
  · intro q1 q2 cs rest n h1 h2
    rw [attemptsLoop_eq]
    conv_rhs => rw [attemptsLoop_eq]
    by_cases hn : STREAM_LOGS_MAX_RETRIES ≤ n
    · simp only [if_pos hn]
    · simp only [if_neg hn, if_neg (not_lt.mpr h1), if_neg (not_lt.mpr h2)]

/-- C10 witness: a reading of 301 s aborts with no work; readings of 0 s
and 299 s behave identically. -/
theorem c10_timeout_only_between_attempts_witness :
    (attemptsLoop STREAM_LOGS_MAX_RETRIES STREAM_LOGS_TIMEOUT 1
        [⟨301, [.fails .networkError]⟩] = ([], [], .timedOut)) ∧
    (attemptsLoop STREAM_LOGS_MAX_RETRIES STREAM_LOGS_TIMEOUT 0
        [⟨(0 : ℚ), [.delivers [.valid (.complete none)] none]⟩] =
      attemptsLoop STREAM_LOGS_MAX_RETRIES STREAM_LOGS_TIMEOUT 0
        [⟨(299 : ℚ), [.delivers [.valid (.complete none)] none]⟩]) :=
  ⟨c10_timeout_only_between_attempts.1 ⟨301, [.fails .networkError]⟩ [] 1
      (by norm_num [STREAM_LOGS_MAX_RETRIES])
      (by norm_num [STREAM_LOGS_TIMEOUT]),
   c10_timeout_only_between_attempts.2 0 299
      [.delivers [.valid (.complete none)] none] [] 0
      (by norm_num [STREAM_LOGS_TIMEOUT])
      (by norm_num [STREAM_LOGS_TIMEOUT])⟩

/-! ### Resume cursor -/

theorem lastTruthyId_cons (l : BuildLogLine) (ls : List BuildLogLine)
    (acc : Option String) :
    lastTruthyId (l :: ls) acc =
      lastTruthyId ls (if pyTruthy l.id then l.id else acc) := rfl

/-- The cursor the read loop ends with is the most recent truthy id of the
parsed lines it observed. -/
theorem readLines_cursor (ls : List RawLine) (lid : Option String) :
    (readLines ls lid).2.1 = lastTruthyId (observedParsed ls) lid := by
  induction ls generalizing lid with
  | nil => rfl
  | cons r rest ih =>
      cases r with
      | blank => exact ih lid
      | malformed => exact ih lid
      | valid l =>
          cases l with
          | message t i =>
              rw [readLines_message]
              exact ih (if pyTruthy i then i else lid)
          | heartbeat i =>
              rw [readLines_heartbeat]
              exact ih (if pyTruthy i then i else lid)
          | complete i => rfl
          | failed i => rfl
          | timeout i => rfl

/-- The first request of the connection loop carries the current cursor
when it is truthy, and no `last_id` parameter otherwise. -/
theorem streamBody_head_request (conn : Connection) (cs : List Connection)
    (lid : Option String) :
    (streamBody (conn :: cs) lid).1.head? =
      some (if pyTruthy lid then lid else none) := by
  cases conn with
  | fails e => rfl
  | delivers ls ending =>
      rw [streamBody_delivers]
      rcases (readLines ls lid).2.2 with _ | _ | _
      · rfl
      · rfl
      · cases ending <;> rfl

/-- A read loop that breaks on a `timeout` line makes the connection loop
sleep 0.5 s and reconnect — within the same generator invocation — with
the cursor updated to the most recent truthy id observed. -/
theorem streamBody_timeout_reconnect (ls : List RawLine)
    (ending : Option HttpxError) (cs : List Connection) (lid : Option String)
    (h : (readLines ls lid).2.2 = .timeoutBreak) :
    streamBody (.delivers ls ending :: cs) lid =
      ((if pyTruthy lid then lid else none) ::
         (streamBody cs (lastTruthyId (observedParsed ls) lid)).1,
       (readLines ls lid).1.map .yielded ++
         .slept (1 / 2) ::
           (streamBody cs (lastTruthyId (observedParsed ls) lid)).2.1,
       (streamBody cs (lastTruthyId (observedParsed ls) lid)).2.2) := by
  rw [streamBody_delivers]
  simp only [h, readLines_cursor]

/-- C7 counterexample: on a connection whose parsed lines carry the ids
`"x1"`, `""` (non-null but empty) and then a `timeout` line, the most
recent non-null id is `""`, yet the reconnect request passes `"x1"` as
`last_id` — the code updates the cursor only on truthy ids
(`if log_line.id:`), not on all non-null ones. -/
theorem c7_counterexample :
    mostRecentNonNullId (observedParsed exC7conn) = some "" ∧
    (stream_build_logs exC7).1 = [none, some "x1"] ∧
    (some "x1" : Option String) ≠ some "" := by
  refine ⟨by decide, by decide, by decide⟩

/-- C7 amended: after a `timeout`-typed event the reader abandons the
current read loop and reconnects within the same generator invocation
(sleeping 0.5 s, not incrementing the outer attempt counter), passing
as the resume parameter the most recent truthy id — non-null and
non-empty — observed on the parsed lines (a null or empty id leaves the
cursor unchanged); and when the resumed connections deliver only lines
with ids strictly above every id previously delivered, no
previously-yielded message event with a lower id is redelivered. -/
theorem c7_amended_resume_cursor :
    (∀ ls lid, (readLines ls lid).2.1 =
        lastTruthyId (observedParsed ls) lid) ∧
    (∀ conn cs lid, (streamBody (conn :: cs) lid).1.head? =
        some (if pyTruthy lid then lid else none)) ∧
    (∀ ls ending cs lid, (readLines ls lid).2.2 = .timeoutBreak →
        streamBody (.delivers ls ending :: cs) lid =
          ((if pyTruthy lid then lid else none) ::
             (streamBody cs (lastTruthyId (observedParsed ls) lid)).1,
           (readLines ls lid).1.map .yielded ++
             .slept (1 / 2) ::
               (streamBody cs (lastTruthyId (observedParsed ls) lid)).2.1,
           (streamBody cs (lastTruthyId (observedParsed ls) lid)).2.2)) ∧
    (∀ (ls ls2 : List RawLine) (lid lid2 : Option String),
        (∀ y : BuildLogLine, RawLine.valid y ∈ ls2 →
          ∀ i, y.id = some i →
          ∀ x : BuildLogLine, RawLine.valid x ∈ ls →
          ∀ j, x.id = some j → j < i) →
        ∀ y ∈ (readLines ls2 lid2).1, ∀ i, y.id = some i →
        ∀ x ∈ (readLines ls lid).1, ∀ j, x.id = some j → j < i) := by
  refine ⟨readLines_cursor, streamBody_head_request,
    streamBody_timeout_reconnect, ?_⟩
  intro ls ls2 lid lid2 H y hy i hi x hx j hj
  exact H y (readLines_yield_mem ls2 lid2 y hy) i hi
    x (readLines_yield_mem ls lid x hx) j hj

/-- C7 amended witness: the timeout reconnect of the counterexample
input, and a no-redelivery instance with ids `"id1" < "id2"`. -/
theorem c7_amended_resume_cursor_witness :
    (streamBody
        (.delivers exC7conn none ::
          [.delivers [.valid (.complete none)] none]) none =
      (none ::
         (streamBody [.delivers [.valid (.complete none)] none]
            (lastTruthyId (observedParsed exC7conn) none)).1,
       (readLines exC7conn none).1.map .yielded ++
         .slept (1 / 2) ::
           (streamBody [.delivers [.valid (.complete none)] none]
              (lastTruthyId (observedParsed exC7conn) none)).2.1,
       (streamBody [.delivers [.valid (.complete none)] none]
          (lastTruthyId (observedParsed exC7conn) none)).2.2)) ∧
    (∀ y ∈ (readLines [.valid (.message "b2" (some "id2"))] none).1,
        ∀ i, y.id = some i →
        ∀ x ∈ (readLines [.valid (.message "a1" none)] none).1,
        ∀ j, x.id = some j → j < i) := by
  constructor
  · exact c7_amended_resume_cursor.2.2.1 exC7conn none
      [.delivers [.valid (.complete none)] none] none rfl
  · refine c7_amended_resume_cursor.2.2.2
      [.valid (.message "a1" none)]
      [.valid (.message "b2" (some "id2"))] none none ?_
    intro y hy i hi x hx j hj
    rw [List.mem_singleton] at hx
    cases RawLine.valid.inj hx
    exact absurd hj (by simp [BuildLogLine.id])

/-! ### Connection-closure path -/

/-- A connection that closes without reaching a terminal or `timeout`
line makes the generator raise `httpx.NetworkError`; no sleep is
performed on this path. -/
theorem streamBody_closed_raises (ls : List RawLine) (cs : List Connection)
    (lid : Option String) (h : (readLines ls lid).2.2 = .closed) :
    streamBody (.delivers ls none :: cs) lid =
      ([if pyTruthy lid then lid else none],
       (readLines ls lid).1.map .yielded, .raised .networkError) := by
  rw [streamBody_delivers]
  simp only [h]

/-- C8 counterexample: a connection that closes without a terminal event
is followed by a reconnect whose only intervening sleep is the Executor's
1-second backoff — the 0.5-second delay is absent from the trace. -/
theorem c8_counterexample :
    stream_build_logs exC8 =
      ([none, none],
       [.slept ((backoffSeconds 0 : ℚ)), .yielded (.complete none)],
       .completed) ∧
    TraceItem.slept (1 / 2) ∉ (stream_build_logs exC8).2.1 := by
  refine ⟨by decide, ?_⟩
  intro hmem
  rw [show (stream_build_logs exC8).2.1 =
      [.slept ((backoffSeconds 0 : ℚ)), .yielded (.complete none)] by
    decide] at hmem
  rw [show ((backoffSeconds 0 : ℚ)) = 1 by norm_num [backoffSeconds]] at hmem
  simp only [List.mem_cons, List.not_mem_nil, or_false] at hmem
  rcases hmem with h | h
  · exact absurd (TraceItem.slept.inj h) (by norm_num)
  · exact TraceItem.noConfusion h

/-- One outer iteration whose generator body raised a transient error:
the Executor sleeps the backoff and the loop moves to attempt `n + 1`. -/
theorem attemptsLoop_raised_step (total : Nat) (timeout : ℚ) (n : Nat)
    (env : AttemptEnv) (rest : List AttemptEnv) (e : HttpxError)
    (hn : n < total) (ht : env.elapsed ≤ timeout)
    (hres : (streamBody env.connections none).2.2 = .raised e)
    (htr : isTransient e = true) :
    attemptsLoop total timeout n (env :: rest) =
      ((streamBody env.connections none).1 ++
         (attemptsLoop total timeout (n + 1) rest).1,
       (streamBody env.connections none).2.1 ++
         .slept ((backoffSeconds n : ℚ)) ::
           (attemptsLoop total timeout (n + 1) rest).2.1,
       (attemptsLoop total timeout (n + 1) rest).2.2) := by
  rw [attemptsLoop_eq, if_neg (Nat.not_le.mpr hn)]
  simp only [if_neg (not_lt.mpr ht), hres,
    attempt_retry_of_transient n e htr]

/-- C8 amended: the fixed 0.5-second delay is applied between reconnects
driven by a `timeout`-typed event, inside one generator invocation; a
connection that closes without a terminal event instead raises a network
error with no sleep of its own, and its reconnect is driven by the outer
Executor, sleeping exactly the `min(2^n, 30)`-second backoff. -/
theorem c8_amended_closure_backoff :
    (∀ ls cs lid, (readLines ls lid).2.2 = .closed →
        streamBody (.delivers ls none :: cs) lid =
          ([if pyTruthy lid then lid else none],
           (readLines ls lid).1.map .yielded, .raised .networkError)) ∧
    (∀ ls cs lid (q : ℚ), (readLines ls lid).2.2 = .closed →
        TraceItem.slept q ∉ (streamBody (.delivers ls none :: cs) lid).2.1) ∧
    (∀ total (timeout : ℚ) n env rest e, n < total →
        env.elapsed ≤ timeout →
        (streamBody env.connections none).2.2 = .raised e →
        isTransient e = true →
        attemptsLoop total timeout n (env :: rest) =
          ((streamBody env.connections none).1 ++
             (attemptsLoop total timeout (n + 1) rest).1,
           (streamBody env.connections none).2.1 ++
             .slept ((backoffSeconds n : ℚ)) ::
               (attemptsLoop total timeout (n + 1) rest).2.1,
           (attemptsLoop total timeout (n + 1) rest).2.2)) ∧
    (∀ ls ending cs lid, (readLines ls lid).2.2 = .timeoutBreak →
        (streamBody (.delivers ls ending :: cs) lid).2.1 =
          (readLines ls lid).1.map .yielded ++
            .slept (1 / 2) ::
              (streamBody cs (readLines ls lid).2.1).2.1) := by
  refine ⟨streamBody_closed_raises, ?_, attemptsLoop_raised_step, ?_⟩
  · intro ls cs lid q h hmem
    rw [streamBody_closed_raises ls cs lid h] at hmem
    simp only at hmem
    rcases List.mem_map.mp hmem with ⟨x, _, hx⟩
    cases hx
  · intro ls ending cs lid h
    rw [streamBody_delivers]
    simp only [h]

/-- C8 amended witness: the closure run of the counterexample input, its
no-sleep property, the backoff step it triggers, and a timeout-driven
0.5-second reconnect. -/
theorem c8_amended_closure_backoff_witness :
    (streamBody [.delivers [] none] none =
      ([none], [], .raised .networkError)) ∧
    (TraceItem.slept (1 / 2) ∉ (streamBody [.delivers [] none] none).2.1) ∧
    (attemptsLoop 3 300 0 [⟨0, [.delivers [] none]⟩, ⟨10, []⟩] =
      ((streamBody [.delivers [] none] none).1 ++
         (attemptsLoop 3 300 1 [⟨10, []⟩]).1,
       (streamBody [.delivers [] none] none).2.1 ++
         .slept ((backoffSeconds 0 : ℚ)) ::
           (attemptsLoop 3 300 1 [⟨10, []⟩]).2.1,
       (attemptsLoop 3 300 1 [⟨10, []⟩]).2.2)) ∧
    ((streamBody [.delivers [.valid (.timeout none)] none] none).2.1 =
      ([] : List BuildLogLine).map .yielded ++
        .slept (1 / 2) :: (streamBody [] none).2.1) := by
  refine ⟨?_, ?_, ?_, ?_⟩
  · exact c8_amended_closure_backoff.1 [] [] none rfl
  · exact c8_amended_closure_backoff.2.1 [] [] none (1 / 2) rfl
  · exact c8_amended_closure_backoff.2.2.1 3 300 0 ⟨0, [.delivers [] none]⟩
      [⟨10, []⟩] .networkError (by norm_num) (by norm_num) rfl rfl
  · exact c8_amended_closure_backoff.2.2.2 [.valid (.timeout none)] none []
      none rfl

/-! ### Upload cancellation -/

/-- C9: a `KeyboardInterrupt` between requesting the upload target and
confirming completion triggers exactly one best-effort
`POST /deployments/{id}/upload-cancelled`, whose own failure never
escapes `_cancel_upload`, and the original interruption is re-raised
unchanged. -/
theorem c9_cancel_on_interrupt (deployment_id : String) (k : Nat)
    (notice : NoticeOutcome) (h1 : 1 ≤ k) (h2 : k ≤ 2) :
    (uploadPhase deployment_id (some k) notice).1.count
        (.postUploadCancelled deployment_id) = 1 ∧
    (uploadPhase deployment_id (some k) notice).2 = .keyboardInterrupt ∧
    (∀ n', (cancel_upload deployment_id n').2 = false) := by
  refine ⟨?_, rfl, fun n' => by cases n' <;> rfl⟩
  have hcancel : (cancel_upload deployment_id notice).1 =
      [.postUploadCancelled deployment_id] := by cases notice <;> rfl
  interval_cases k
  · simp [uploadPhase, upload_deployment_steps, hcancel, List.count_cons,
      List.count_nil]
  · simp [uploadPhase, upload_deployment_steps, hcancel, List.count_cons,
      List.count_nil]

/-- C9 witness: interrupt after the archive transfer, with the
cancellation notice itself failing. -/
theorem c9_cancel_on_interrupt_witness :
    (uploadPhase "dep-1" (some 2) (.fails .networkError)).1.count
        (.postUploadCancelled "dep-1") = 1 ∧
    (uploadPhase "dep-1" (some 2) (.fails .networkError)).2 =
      .keyboardInterrupt ∧
    (∀ n', (cancel_upload "dep-1" n').2 = false) :=
  c9_cancel_on_interrupt "dep-1" 2 (.fails .networkError) (by norm_num)
    (by norm_num)

end FastapiCloudCli
